import Mathlib

/-!
Verification of the clinic-voice-agent core against its specification.

This file shallowly embeds the session-aware tool-orchestration engine of the
repository in Lean 4:

* `src/tools/otp.py` — identity-verification state machine (patient directory,
  one-time codes keyed by MRN, session-scoped verified sets);
* `src/agents/factory.py` — tool registry dispatch (`_execute_tool`) and the
  bounded tool-calling loop (`run` / `_process_function_calls`);
* `src/sessions/cosmos_store.py` and `src/sessions/manager.py` — the session
  store (`create_session`, `get_session`, `get_or_create`).

Python dictionaries keyed by strings become Lean functions `String → Option _`;
module-level mutable state becomes explicit state records threaded through the
operations; Python truthiness tests on strings (`if not sid:`) are rendered as
explicit emptiness checks.  The ambient `contextvars` current-session indicator
is passed to each operation as an explicit `ctx : Option String` argument.
-/

namespace ClinicVoice

/-! ## Python string helpers -/

/-- Python `str.strip()` with no argument: remove leading and trailing
whitespace (ASCII whitespace; the unicode cases do not arise for OTP codes). -/
def pyStrip (s : String) : String :=
  String.mk (((s.data.dropWhile Char.isWhitespace).reverse.dropWhile
    Char.isWhitespace).reverse)

/-! ## Patient directory (`_PATIENTS`, `_PHONE_INDEX` in src/tools/otp.py) -/

/-- One entry of the mock patient directory `_PATIENTS`. -/
structure Patient where
  mrn : String
  name : String
  phone : String
  dob : String
  emirateId : String
deriving DecidableEq, Repr

/-- The four-entry mock directory `_PATIENTS` from src/tools/otp.py. -/
def PATIENTS : List Patient :=
  [ ⟨"MRN-5001", "Khalid Al-Rashid", "+971501234567", "1985-03-12", "784-****-*****-0"⟩,
    ⟨"MRN-5050", "Hamza El-Ghoujdami", "+971544842805", "1993-05-28", "784-****-*****-1"⟩,
    ⟨"MRN-5002", "Mariam Abdullah", "+971509876543", "1990-07-22", "784-****-*****-2"⟩,
    ⟨"MRN-5003", "Hassan Youssef", "+971507654321", "1978-11-05", "784-****-*****-3"⟩ ]

/-- `_PATIENTS.get(mrn)` — directory lookup by medical-record number. -/
def findPatient (mrn : String) : Option Patient :=
  PATIENTS.find? (fun p => p.mrn == mrn)

/-- `_PHONE_INDEX.get(phone)` — the reverse index phone → MRN. -/
def phoneIndex (phone : String) : Option String :=
  (PATIENTS.find? (fun p => p.phone == phone)).map Patient.mrn

/-! ## OTP-subsystem state (module-level dicts of src/tools/otp.py) -/

/-- The mutable module state of src/tools/otp.py:
`_ACTIVE_OTPS : mrn → code`, `_VERIFIED : session_id → set of mrn`,
`_LAST_VERIFIED : session_id → patient` (the stored dict is
`{"mrn": patient_mrn, **patient}`, which is determined by the MRN, so only the
MRN is retained here). -/
structure OtpState where
  activeOtps : String → Option String
  verified : String → String → Bool
  lastVerified : String → Option String

/-- Pointwise update of an `_ACTIVE_OTPS`-style map. -/
def setActive (f : String → Option String) (k : String) (v : Option String) :
    String → Option String :=
  fun m => if m = k then v else f m

/-- `_VERIFIED[sid].add(mrn)` (creating the set if absent). -/
def addVerified (f : String → String → Bool) (sid mrn : String) :
    String → String → Bool :=
  fun s m => if s = sid ∧ m = mrn then true else f s m

/-- `_LAST_VERIFIED[sid] = {"mrn": mrn, **patient}`. -/
def setLast (f : String → Option String) (sid mrn : String) :
    String → Option String :=
  fun s => if s = sid then some mrn else f s

/-- Python `a or b` on an optional string: empty strings are falsy. -/
def pyOrStr (a b : Option String) : Option String :=
  match a with
  | some s => if s = "" then b else some s
  | none => b

/-! ## The OTP tools -/

/-- Outcome classification of `send_otp` (the returned message strings). -/
inductive SendResult where
  | patientNotFound
  | otpSent
deriving DecidableEq, Repr

/-- `send_otp(patient_mrn)` from src/tools/otp.py: unknown patient fails;
otherwise the (mock, constant) 6-digit code "123456" is stored under the
patient MRN, overwriting any prior outstanding code.  The function never reads
the current-session context: codes are keyed by patient alone. -/
def send_otp (st : OtpState) (patient_mrn : String) : SendResult × OtpState :=
  match findPatient patient_mrn with
  | none => (SendResult.patientNotFound, st)
  | some _ =>
      (SendResult.otpSent,
       { st with activeOtps := setActive st.activeOtps patient_mrn (some "123456") })

/-- Outcome classification of `verify_otp`:
`noActiveOtp` is the "No active OTP for patient ... Please send an OTP first."
reply, `verifiedOk` the "Identity verified successfully" reply and
`invalidCode` the "Invalid OTP code" reply. -/
inductive VerifyResult where
  | noActiveOtp
  | verifiedOk
  | invalidCode
deriving DecidableEq, Repr

/-- `verify_otp(patient_mrn, otp_code)` from src/tools/otp.py.  `ctx` is the
value of `get_session_context()`.  Mirrors the source line by line:
`if not expected:` (absent or empty code) fails with `noActiveOtp`; the
supplied code is compared via `otp_code.strip() == expected`; on match, if the
context holds a truthy session id the patient is added to the session-scoped
verified set and recorded as last-verified, then the outstanding code is
deleted; on mismatch nothing changes. -/
def verify_otp (ctx : Option String) (st : OtpState) (patient_mrn otp_code : String) :
    VerifyResult × OtpState :=
  match st.activeOtps patient_mrn with
  | none => (VerifyResult.noActiveOtp, st)
  | some expected =>
      if expected = "" then (VerifyResult.noActiveOtp, st)
      else if pyStrip otp_code = expected then
        let st1 :=
          match ctx with
          | some sid =>
              if sid = "" then st
              else
                { st with
                  verified := addVerified st.verified sid patient_mrn,
                  lastVerified := setLast st.lastVerified sid patient_mrn }
          | none => st
        (VerifyResult.verifiedOk,
         { st1 with activeOtps := setActive st1.activeOtps patient_mrn none })
      else (VerifyResult.invalidCode, st)

/-- `is_patient_verified(mrn, session_id=None)` from src/tools/otp.py:
`sid = session_id or get_session_context(); if not sid: return False;
return mrn in _VERIFIED.get(sid, set())`. -/
def is_patient_verified (ctx : Option String) (st : OtpState)
    (mrn : String) (session_id : Option String) : Bool :=
  match pyOrStr session_id ctx with
  | none => false
  | some sid => if sid = "" then false else st.verified sid mrn

/-- `get_last_verified_patient(session_id=None)` from src/tools/otp.py: reads
and pops the session's last-verified entry. -/
def get_last_verified_patient (ctx : Option String) (st : OtpState)
    (session_id : Option String) : Option String × OtpState :=
  match pyOrStr session_id ctx with
  | none => (none, st)
  | some sid =>
      if sid = "" then (none, st)
      else
        (st.lastVerified sid,
         { st with lastVerified := fun s => if s = sid then none else st.lastVerified s })

/-! ## Sequences of OTP-subsystem operations

For the monotonicity/session-scoping claim we close the subsystem under
arbitrary further operation sequences.  `lookup_patient` never touches this
state and is omitted from the step alphabet; each operation carries the
current-session context it runs under, so arbitrary interleavings of requests
from different sessions are covered. -/

/-- The state-mutating operations of src/tools/otp.py. -/
inductive OtpOp where
  | send (patient_mrn : String)
  | verify (ctx : Option String) (patient_mrn otp_code : String)
  | getLast (ctx : Option String) (session_id : Option String)
deriving Repr

/-- State effect of one operation. -/
def stepOp (st : OtpState) (op : OtpOp) : OtpState :=
  match op with
  | OtpOp.send m => (send_otp st m).snd
  | OtpOp.verify c m code => (verify_otp c st m code).snd
  | OtpOp.getLast c s => (get_last_verified_patient c st s).snd

/-- Run a sequence of operations. -/
def runOps (st : OtpState) (ops : List OtpOp) : OtpState :=
  ops.foldl stepOp st

/-- `op`, executed in state `st`, is a successful code verification for
patient `mrn` while `sid` is the current session. -/
def successfulVerifyFor (st : OtpState) (op : OtpOp) (sid mrn : String) : Prop :=
  ∃ code, op = OtpOp.verify (some sid) mrn code ∧
    (verify_otp (some sid) st mrn code).fst = VerifyResult.verifiedOk

/-! ## Patient lookup and phone masking (`lookup_patient` in src/tools/otp.py) -/

/-- The masking expression `phone[:5] + "****" + phone[-3:]` on the character
list of the contact string.  Python `phone[-3:]` is `drop (length - 3)`; for
strings shorter than 3 both give the whole string (truncated Nat subtraction
matches Python slicing here). -/
def maskChars (p : List Char) : List Char :=
  p.take 5 ++ ['*', '*', '*', '*'] ++ p.drop (p.length - 3)

/-- `phone[:5] + "****" + phone[-3:]` as a string operation. -/
def maskPhone (s : String) : String := String.mk (maskChars s.data)

/-- Content of the reply of `lookup_patient`: the not-found message carries
the identifier; the found message carries the name, MRN, masked phone and
date of birth (the raw contact string appears nowhere in it). -/
inductive LookupResult where
  | notFound (identifier : String)
  | found (name mrn maskedPhone dob : String)
deriving DecidableEq, Repr

/-- Python `str.upper()`, character-wise (ASCII — all directory keys are
ASCII). -/
def pyUpper (s : String) : String := String.mk (s.data.map Char.toUpper)

/-- The directory probe of `lookup_patient`: identifiers whose uppercased form
starts with "MRN" (`identifier.upper().startswith("MRN")`) are looked up
(uppercased) as medical-record numbers; anything else goes through the phone
reverse-index. -/
def lookupPatientEntry (identifier : String) : Option Patient :=
  if ("MRN".data).isPrefixOf (pyUpper identifier).data then
    findPatient (pyUpper identifier)
  else
    match phoneIndex identifier with
    | some mrn => findPatient mrn
    | none => none

/-- `lookup_patient(identifier)` from src/tools/otp.py. -/
def lookup_patient (identifier : String) : LookupResult :=
  match lookupPatientEntry identifier with
  | none => LookupResult.notFound identifier
  | some pt => LookupResult.found pt.name pt.mrn (maskPhone pt.phone) pt.dob

/-! ## Tool registry dispatch (`AgentFactory._execute_tool`, src/agents/factory.py)

A registered tool is modelled as a total function
`String → Except String String`: the whole guarded body of `_execute_tool`
(argument JSON-parsing plus handler invocation) either produces a result
string or raises with a message, and the `except Exception` clause catches
every raise.  `_tool_lookup.get(name)` is the registry map. -/

/-- `json.dumps({"error": msg})` — the structured error payload. -/
def errorPayload (msg : String) : String :=
  "\x7b\"error\": \"" ++ msg ++ "\"\x7d"

/-- `_execute_tool(name, arguments)` from src/agents/factory.py: an
unregistered name yields the unknown-tool error payload; a handler that
raises is caught and converted to an error payload carrying the failure
message; otherwise the handler result is passed through.  The function is
total: it never propagates a raise. -/
def execute_tool (lookup : String → Option (String → Except String String))
    (name arguments : String) : String :=
  match lookup name with
  | none => errorPayload ("Unknown tool: " ++ name)
  | some handler =>
      match handler arguments with
      | Except.ok r => r
      | Except.error e => errorPayload e

/-! ## The turn orchestration loop (`AgentFactory.run`, src/agents/factory.py)

The remote model is abstracted by a response script `Nat → ModelResponse`:
the initial `responses.create` call returns `script 0`, and the j-th
follow-up round-trip made by `_process_function_calls` returns `script j`.
Every concrete execution trace of the Python loop is represented by the
script of responses its remote service actually returned, so quantifying
over scripts covers all model behaviours. -/

/-- One item of `response.output`: either a `function_call` request
(call id, tool name, serialized arguments) or any other item. -/
inductive OutputItem where
  | functionCall (call_id name arguments : String)
  | message (text : String)
deriving DecidableEq, Repr

/-- A response of the remote model: its id, output items, and output text. -/
structure ModelResponse where
  rid : String
  output : List OutputItem
  output_text : String
deriving DecidableEq, Repr

/-- The `function_call` items of a response, in output order (the list
comprehension filtering `item.type == "function_call"`). -/
def functionCallsOf (r : ModelResponse) : List (String × String × String) :=
  r.output.filterMap fun i =>
    match i with
    | OutputItem.functionCall cid n args => some (cid, n, args)
    | OutputItem.message _ => none

/-- Result of the tool loop: the final response, the `tools_called`
accumulator, the log of tool names handed to `execute_tool` (one entry per
dispatch, in dispatch order), and the number of follow-up round-trips the
loop performed. -/
structure LoopResult where
  finalResponse : ModelResponse
  tools_called : List String
  dispatched : List String
  roundTrips : Nat
deriving DecidableEq, Repr

/-- The `for _ in range(MAX_TOOL_ITERATIONS)` loop of `run` together with
`_process_function_calls`: with fuel left, a response without function calls
ends the loop (`has_more = False`); otherwise every requested call is
executed — its name appended to `tools_called` just before the dispatch, the
dispatch logged — and the outputs are sent back in a single follow-up
request, whose reply (`script k`) is examined next. -/
def processLoop (lookup : String → Option (String → Except String String))
    (script : Nat → ModelResponse) :
    Nat → Nat → ModelResponse → List String → List String → Nat → LoopResult
  | 0, _, resp, tools, disp, trips => ⟨resp, tools, disp, trips⟩
  | Nat.succ fuel, k, resp, tools, disp, trips =>
      let fcs := functionCallsOf resp
      if fcs.isEmpty then ⟨resp, tools, disp, trips⟩
      else
        processLoop lookup script fuel (k + 1) (script k)
          (tools ++ fcs.map (fun c => c.2.1))
          (disp ++ (fcs.map
            (fun c => (c.2.1, execute_tool lookup c.2.1 c.2.2))).map Prod.fst)
          (trips + 1)

/-- `MAX_TOOL_ITERATIONS = 30` from src/agents/factory.py. -/
def MAX_TOOL_ITERATIONS : Nat := 30

/-- The reply assembled by `run`. -/
structure RunResult where
  response : String
  conversation_id : String
  tools_called : List String
deriving DecidableEq, Repr

/-- `run(message, session_id)` from src/agents/factory.py, after the initial
response was obtained (`script 0`, one model round-trip): the bounded tool
loop runs, then the last response's `output_text` and the accumulated
`tools_called` are returned as-is.  The second and third components are the
dispatch log and the total number of model round-trips (the initial request
plus the loop's follow-ups). -/
def run (lookup : String → Option (String → Except String String))
    (script : Nat → ModelResponse) (session_id : String) :
    RunResult × List String × Nat :=
  let res := processLoop lookup script MAX_TOOL_ITERATIONS 1 (script 0) [] [] 0
  (⟨res.finalResponse.output_text, session_id, res.tools_called⟩,
   res.dispatched, res.roundTrips + 1)

/-- A response script on which the model requests a tool call on every
round-trip: the loop never converges on its own. -/
def loopScript : Nat → ModelResponse :=
  fun _ => ⟨"resp", [OutputItem.functionCall "call-1" "ping" ""], "partial answer"⟩

/-- A concrete registry with a single tool "boom" whose handler raises. -/
def lookupBoom : String → Option (String → Except String String) :=
  fun n => if n = "boom" then some (fun _ => Except.error "kaput") else none

/-! ## Session store (src/sessions/cosmos_store.py via src/sessions/manager.py)

The Cosmos container is modelled as a map `String → Option SessionDoc`;
timestamps are opaque strings supplied by the caller (`datetime.now(...)`). -/

/-- One stored conversation turn (an element of `conversation_history`). -/
structure SessionTurn where
  role : String
  text : String
  timestamp : String
  agent : Option String
  tool_calls : List String
deriving DecidableEq, Repr

/-- The cached `patient_context` snapshot. -/
structure PatientSnapshot where
  name : String
  phone_masked : String
  dob : String
  verified_at : Option String
deriving DecidableEq, Repr

/-- A session document as created by `CosmosSessionStore.create_session`
(the `metadata` sub-object is flattened into the `last_agent`,
`handoff_count` and `tool_calls_meta` fields). -/
structure SessionDoc where
  id : String
  session_id : String
  created_at : String
  updated_at : String
  patient_mrn : Option String
  patient_verified : Bool
  conversation_history : List SessionTurn
  patient_context : Option PatientSnapshot
  last_agent : Option String
  handoff_count : Nat
  tool_calls_meta : List String
  ttl : Nat
deriving DecidableEq, Repr

/-- `DEFAULT_TTL = 86400` (24 hours) from src/sessions/cosmos_store.py. -/
def DEFAULT_TTL : Nat := 86400

/-- `create_session(session_id)`: builds the fresh document (empty history,
no patient, unverified, zero handoffs, TTL fixed at creation) and inserts it
into the container. -/
def create_session (now : String) (store : String → Option SessionDoc)
    (session_id : String) : SessionDoc × (String → Option SessionDoc) :=
  let doc : SessionDoc :=
    { id := session_id, session_id := session_id,
      created_at := now, updated_at := now,
      patient_mrn := none, patient_verified := false,
      conversation_history := [], patient_context := none,
      last_agent := none, handoff_count := 0, tool_calls_meta := [],
      ttl := DEFAULT_TTL }
  (doc, fun s => if s = session_id then some doc else store s)

/-- `get_session(session_id)`: point read, `None` when absent. -/
def get_session (store : String → Option SessionDoc) (session_id : String) :
    Option SessionDoc :=
  store session_id

/-- `SessionManager.get_or_create(session_id)`: return the existing document
or create a new one. -/
def get_or_create (now : String) (store : String → Option SessionDoc)
    (session_id : String) : SessionDoc × (String → Option SessionDoc) :=
  match get_session store session_id with
  | some doc => (doc, store)
  | none => create_session now store session_id

/-- `SessionManager.get_conversation_id(session_id)`: the conversation
linkage lives in the separate `_workflows` runtime cache, which
`get_or_create` never touches; a session with no cache entry has no linkage. -/
def get_conversation_id (workflows : String → Option String)
    (session_id : String) : Option String :=
  workflows session_id

/-- A concrete OTP-module state in which every patient has the (mock)
outstanding code "123456" and nobody is verified; used to instantiate the
general theorems. -/
def stW : OtpState :=
  { activeOtps := fun _ => some "123456",
    verified := fun _ _ => false,
    lastVerified := fun _ => none }

/-- The initial OTP-module state: no outstanding codes, nobody verified. -/
def stEmpty : OtpState :=
  { activeOtps := fun _ => none,
    verified := fun _ _ => false,
    lastVerified := fun _ => none }

/-- An empty session container. -/
def storeEmpty : String → Option SessionDoc := fun _ => none

/-- An empty workflow cache. -/
def wfEmpty : String → Option String := fun _ => none

/-! ## Basic lemmas about the OTP operations -/

theorem addVerified_self (f : String → String → Bool) (sid mrn : String) :
    addVerified f sid mrn sid mrn = true := by
  simp [addVerified]

theorem addVerified_true_iff (f : String → String → Bool) (sid mrn s m : String) :
    addVerified f sid mrn s m = true ↔ (s = sid ∧ m = mrn) ∨ f s m = true := by
  unfold addVerified
  split_ifs with h
  · simp [h]
  · simp [h]

/-- A successful verification consumes the outstanding code for the patient. -/
theorem verify_otp_ok_active_none (ctx : Option String) (st st' : OtpState)
    (p c : String) (h : verify_otp ctx st p c = (VerifyResult.verifiedOk, st')) :
    st'.activeOtps p = none := by
  cases hA : st.activeOtps p with
  | none => simp only [verify_otp, hA, Prod.mk.injEq] at h; exact absurd h.1 (by simp)
  | some expected =>
    simp only [verify_otp, hA] at h
    split_ifs at h with h1 h2
    · exact absurd (Prod.mk.injEq _ _ _ _ ▸ h).1 (by simp)
    · obtain ⟨-, hsnd⟩ := Prod.mk.injEq _ _ _ _ ▸ h
      rw [← hsnd]
      simp [setActive]
    · exact absurd (Prod.mk.injEq _ _ _ _ ▸ h).1 (by simp)

/-- No operation ever removes a patient from a session's verified set. -/
theorem verify_otp_verified_mono (ctx : Option String) (st : OtpState)
    (p c s m : String) (h : st.verified s m = true) :
    ((verify_otp ctx st p c).snd).verified s m = true := by
  cases hA : st.activeOtps p with
  | none => simp only [verify_otp, hA]; exact h
  | some expected =>
    cases ctx with
    | none =>
      simp only [verify_otp, hA]
      split_ifs <;> exact h
    | some sid =>
      simp only [verify_otp, hA]
      split_ifs with h1 h2 h3
      · exact h
      · exact h
      · exact (addVerified_true_iff _ _ _ _ _).mpr (Or.inr h)
      · exact h

/-- A patient newly appearing in a session's verified set after `verify_otp`
can only come from a successful verification for that very (session, patient)
pair under a non-empty current-session context. -/
theorem verify_otp_verified_new (ctx : Option String) (st : OtpState)
    (p c s m : String) (h : ((verify_otp ctx st p c).snd).verified s m = true) :
    st.verified s m = true ∨
      (ctx = some s ∧ s ≠ "" ∧ m = p ∧
        (verify_otp ctx st p c).fst = VerifyResult.verifiedOk) := by
  cases hA : st.activeOtps p with
  | none => simp only [verify_otp, hA] at h; exact Or.inl h
  | some expected =>
    cases ctx with
    | none =>
      simp only [verify_otp, hA] at h
      split_ifs at h <;> exact Or.inl h
    | some sid =>
      simp only [verify_otp, hA] at h ⊢
      split_ifs at h ⊢ with h1 h2 h3
      · exact Or.inl h
      · exact Or.inl h
      · rcases (addVerified_true_iff _ _ _ _ _).mp h with ⟨hs, hm⟩ | hold
        · exact Or.inr ⟨by rw [hs], hs ▸ h3, hm, rfl⟩
        · exact Or.inl hold
      · exact Or.inl h

theorem send_otp_verified_eq (st : OtpState) (p : String) :
    ((send_otp st p).snd).verified = st.verified := by
  unfold send_otp
  cases findPatient p <;> rfl

theorem getLast_verified_eq (ctx : Option String) (st : OtpState)
    (sess : Option String) :
    ((get_last_verified_patient ctx st sess).snd).verified = st.verified := by
  unfold get_last_verified_patient
  cases pyOrStr sess ctx with
  | none => rfl
  | some sid => by_cases h : sid = "" <;> simp [h]

/-- Verified-set monotonicity of a single step. -/
theorem stepOp_verified_mono (st : OtpState) (op : OtpOp) (s m : String)
    (h : st.verified s m = true) : (stepOp st op).verified s m = true := by
  cases op with
  | send p => rw [stepOp, send_otp_verified_eq]; exact h
  | verify c p code => exact verify_otp_verified_mono c st p code s m h
  | getLast c sess => rw [stepOp, getLast_verified_eq]; exact h

/-- Verified-set monotonicity over arbitrary operation sequences. -/
theorem runOps_verified_mono (ops : List OtpOp) (st : OtpState) (s m : String)
    (h : st.verified s m = true) : (runOps st ops).verified s m = true := by
  induction ops generalizing st with
  | nil => exact h
  | cons op rest ih => exact ih (stepOp st op) (stepOp_verified_mono st op s m h)

/-- A step that newly marks (s, m) verified must be a successful verification
for patient `m` under current session `s`. -/
theorem stepOp_verified_new (st : OtpState) (op : OtpOp) (s m : String)
    (h0 : st.verified s m = false) (h1 : (stepOp st op).verified s m = true) :
    successfulVerifyFor st op s m := by
  cases op with
  | send p => rw [stepOp, send_otp_verified_eq] at h1; rw [h0] at h1; exact absurd h1 (by simp)
  | verify c p code =>
    rcases verify_otp_verified_new c st p code s m h1 with hold | ⟨hc, _, hm, hres⟩
    · rw [h0] at hold; exact absurd hold (by simp)
    · subst hm; subst hc; exact ⟨code, rfl, hres⟩
  | getLast c sess =>
    rw [stepOp, getLast_verified_eq] at h1; rw [h0] at h1; exact absurd h1 (by simp)

/-- If (s, m) was unverified before a sequence of operations and is verified
after it, some operation of the sequence was a successful verification for
(s, m), executed at its position in the sequence. -/
theorem runOps_verified_source (ops : List OtpOp) (st : OtpState) (s m : String)
    (h0 : st.verified s m = false) (h1 : (runOps st ops).verified s m = true) :
    ∃ pre op rest, ops = pre ++ op :: rest ∧
      successfulVerifyFor (runOps st pre) op s m := by
  induction ops generalizing st with
  | nil => rw [runOps, List.foldl_nil] at h1; rw [h0] at h1; exact absurd h1 (by simp)
  | cons op rest ih =>
    by_cases hmid : (stepOp st op).verified s m = true
    · exact ⟨[], op, rest, rfl, by rw [runOps, List.foldl_nil]; exact stepOp_verified_new st op s m h0 hmid⟩
    · have hmid' : (stepOp st op).verified s m = false := by
        cases hb : (stepOp st op).verified s m
        · rfl
        · exact absurd hb hmid
      have h1' : (runOps (stepOp st op) rest).verified s m = true := by
        rw [runOps, List.foldl_cons] at h1; exact h1
      obtain ⟨pre, op', rest', heq, hsv⟩ := ih (stepOp st op) hmid' h1'
      refine ⟨op :: pre, op', rest', by rw [heq]; rfl, ?_⟩
      have : runOps st (op :: pre) = runOps (stepOp st op) pre := by
        rw [runOps, List.foldl_cons]; rfl
      rw [this]; exact hsv

/-- A successful verification for patient `p` under a non-empty current
session `S` marks `p` verified for `S`. -/
theorem verify_otp_ok_marks (S p c : String) (st st' : OtpState) (hS : S ≠ "")
    (h : verify_otp (some S) st p c = (VerifyResult.verifiedOk, st')) :
    st'.verified S p = true := by
  cases hA : st.activeOtps p with
  | none => simp only [verify_otp, hA, Prod.mk.injEq] at h; exact absurd h.1 (by simp)
  | some expected =>
    simp only [verify_otp, hA] at h
    split_ifs at h with h1 h2
    · exact absurd (Prod.mk.injEq _ _ _ _ ▸ h).1 (by simp)
    · obtain ⟨-, hsnd⟩ := Prod.mk.injEq _ _ _ _ ▸ h
      rw [← hsnd]
      simp only [if_neg hS]
      exact addVerified_self _ _ _
    · exact absurd (Prod.mk.injEq _ _ _ _ ▸ h).1 (by simp)

/-- `verify_otp` under current session `S` leaves every other session's
verified set untouched. -/
theorem verify_otp_verified_frame (S p c s m : String) (st : OtpState)
    (hne : s ≠ S) :
    ((verify_otp (some S) st p c).snd).verified s m = st.verified s m := by
  cases hA : st.activeOtps p with
  | none => simp only [verify_otp, hA]
  | some expected =>
    simp only [verify_otp, hA]
    split_ifs with h1 h2 h3
    · rfl
    · rfl
    · simp only [addVerified, if_neg (by simp [hne] : ¬(s = S ∧ m = p))]
    · rfl

/-- `is_patient_verified` with no explicit session argument reads the
session-scoped verified set of the current session. -/
theorem is_patient_verified_ctx (S p : String) (st : OtpState) (hS : S ≠ "") :
    is_patient_verified (some S) st p none = st.verified S p := by
  simp [is_patient_verified, pyOrStr, hS]

/-! ## Claim theorems: identity-verification subsystem -/

/-- C1: verification is monotonic and session-scoped.  Once
`verify_otp` succeeds for patient `p` while (non-empty) session `S` is the
current session, `is_patient_verified p` is true under `S` and stays true
after any further sequence of OTP-subsystem operations; the verified status of
`p` in every other session `S'` is untouched by the success, and if it was
false it can only become true through a separate successful `verify_otp` for
`p` executed while `S'` is the current session.  (The empty string is excluded
as a session id: Python treats it as falsy, and the route layer replaces a
falsy session id with a fresh UUID before any tool runs.) -/
theorem C1_verification_monotonic_session_scoped
    (st st' : OtpState) (S p c : String) (hS : S ≠ "")
    (h : verify_otp (some S) st p c = (VerifyResult.verifiedOk, st')) :
    is_patient_verified (some S) st' p none = true
    ∧ (∀ ops : List OtpOp, is_patient_verified (some S) (runOps st' ops) p none = true)
    ∧ (∀ S', S' ≠ S → st'.verified S' p = st.verified S' p)
    ∧ (∀ S' ops, S' ≠ S → st.verified S' p = false →
        is_patient_verified (some S') (runOps st' ops) p none = true →
        ∃ pre op rest, ops = pre ++ op :: rest ∧
          successfulVerifyFor (runOps st' pre) op S' p) := by
  have hsnd : (verify_otp (some S) st p c).snd = st' := by rw [h]
  have hmark : st'.verified S p = true := verify_otp_ok_marks S p c st st' hS h
  refine ⟨?_, ?_, ?_, ?_⟩
  · rw [is_patient_verified_ctx S p st' hS]; exact hmark
  · intro ops
    rw [is_patient_verified_ctx S p _ hS]
    exact runOps_verified_mono ops st' S p hmark
  · intro S' hne
    rw [← hsnd]
    exact verify_otp_verified_frame S p c S' p st hne
  · intro S' ops hne h0 hver
    by_cases hS' : S' = ""
    · rw [hS'] at hver
      simp [is_patient_verified, pyOrStr] at hver
    · rw [is_patient_verified_ctx S' p _ hS'] at hver
      have h0' : st'.verified S' p = false := by
        rw [← hsnd]
        rw [verify_otp_verified_frame S p c S' p st hne]
        exact h0
      exact runOps_verified_source ops st' S' p h0' hver

/-- Witness for C1 at a concrete state: patient MRN-5001 verified with the
correct code in session "sess-A" is reported verified there. -/
theorem C1_witness :
    is_patient_verified (some "sess-A")
      ((verify_otp (some "sess-A") stW "MRN-5001" "123456").snd)
      "MRN-5001" none = true :=
  (C1_verification_monotonic_session_scoped stW
    ((verify_otp (some "sess-A") stW "MRN-5001" "123456").snd)
    "sess-A" "MRN-5001" "123456" (by decide) rfl).1

/-- C2: an issued code is single-use.  After `verify_otp` succeeds for
patient `p` with code `c`, an immediately repeated `verify_otp p c` (under any
current-session context) returns the "no outstanding code" result and changes
nothing: the matching deleted the code, so it cannot be replayed. -/
theorem C2_otp_code_single_use (ctx ctx2 : Option String) (st st' : OtpState)
    (p c : String) (h : verify_otp ctx st p c = (VerifyResult.verifiedOk, st')) :
    verify_otp ctx2 st' p c = (VerifyResult.noActiveOtp, st') := by
  have hnone : st'.activeOtps p = none := verify_otp_ok_active_none ctx st st' p c h
  simp only [verify_otp, hnone]

/-- Witness for C2: replaying "123456" for MRN-5001 right after it was
successfully consumed yields the no-outstanding-code result. -/
theorem C2_witness :
    verify_otp (some "sess-A") ((verify_otp (some "sess-A") stW "MRN-5001" "123456").snd)
      "MRN-5001" "123456"
    = (VerifyResult.noActiveOtp,
       (verify_otp (some "sess-A") stW "MRN-5001" "123456").snd) :=
  C2_otp_code_single_use (some "sess-A") (some "sess-A") stW
    ((verify_otp (some "sess-A") stW "MRN-5001" "123456").snd)
    "MRN-5001" "123456" rfl

/-- C6, counterexample to the claim as stated: `verify_otp` does not compare
the supplied code exactly — it strips leading/trailing whitespace first
(`otp_code.strip() == expected`).  The supplied code " 123456" differs from
the stored code "123456", yet verification succeeds. -/
theorem C6_counterexample :
    (" 123456" : String) ≠ "123456"
    ∧ pyStrip " 123456" = "123456"
    ∧ (verify_otp (some "sess-A") stW "MRN-5001" " 123456").fst
        = VerifyResult.verifiedOk := by
  refine ⟨by decide, by decide, by decide⟩

/-- C6 as amended: for a patient with an outstanding (non-empty) code,
`verify_otp` compares the supplied code after stripping leading and trailing
whitespace, case-sensitively (plain string equality); on mismatch of the
stripped code it returns the invalid-code rejection and the state is entirely
unchanged — the outstanding code is not consumed and the pair stays in the
`code_issued` state, so any retry whose stripped code matches succeeds. -/
theorem C6_verify_mismatch_keeps_code (ctx : Option String) (st : OtpState)
    (p c expected : String) (hA : st.activeOtps p = some expected)
    (hne : expected ≠ "") (hm : pyStrip c ≠ expected) :
    verify_otp ctx st p c = (VerifyResult.invalidCode, st)
    ∧ ∀ c2, pyStrip c2 = expected →
        (verify_otp ctx st p c2).fst = VerifyResult.verifiedOk := by
  constructor
  · simp only [verify_otp, hA, if_neg hne, if_neg hm]
  · intro c2 h2
    cases ctx with
    | none => simp only [verify_otp, hA, if_neg hne, if_pos h2]
    | some sid => simp only [verify_otp, hA, if_neg hne, if_pos h2]

/-- Witness for the amended C6: the wrong code "000000" is rejected for
MRN-5001 without consuming the outstanding code, and the correct code still
verifies afterwards. -/
theorem C6_witness :
    verify_otp (some "sess-A") stW "MRN-5001" "000000"
      = (VerifyResult.invalidCode, stW) :=
  (C6_verify_mismatch_keeps_code (some "sess-A") stW "MRN-5001" "000000"
    "123456" rfl (by decide) (by decide)).1

/-- C7: outstanding codes are keyed by patient id alone, not by
(session, patient).  `send_otp` never reads the current-session context, so a
code issued while one session was current is stored only under the patient
MRN; consuming it later while a different (non-empty) session `B` is current
succeeds, marks the patient verified in `B`, and deletes the single
outstanding code for all sessions. -/
theorem C7_otp_keyed_by_patient_not_session (st : OtpState) (p B : String)
    (hp : (findPatient p).isSome = true) (hB : B ≠ "") :
    (send_otp st p).fst = SendResult.otpSent
    ∧ (verify_otp (some B) ((send_otp st p).snd) p "123456").fst
        = VerifyResult.verifiedOk
    ∧ ((verify_otp (some B) ((send_otp st p).snd) p "123456").snd).verified B p = true
    ∧ ((verify_otp (some B) ((send_otp st p).snd) p "123456").snd).activeOtps p = none := by
  obtain ⟨pt, hpt⟩ := Option.isSome_iff_exists.mp hp
  have hsent : (send_otp st p).fst = SendResult.otpSent := by
    simp only [send_otp, hpt]
  have hA : ((send_otp st p).snd).activeOtps p = some "123456" := by
    simp [send_otp, hpt, setActive]
  have hfst : (verify_otp (some B) ((send_otp st p).snd) p "123456").fst
      = VerifyResult.verifiedOk := by
    simp only [verify_otp, hA, if_neg (by decide : ¬("123456" : String) = ""),
      if_pos (by decide : pyStrip "123456" = "123456")]
  have heq : verify_otp (some B) ((send_otp st p).snd) p "123456"
      = (VerifyResult.verifiedOk,
         (verify_otp (some B) ((send_otp st p).snd) p "123456").snd) := by
    rw [← hfst]
  exact ⟨hsent, hfst,
    verify_otp_ok_marks B p "123456" ((send_otp st p).snd) _ hB heq,
    verify_otp_ok_active_none (some B) ((send_otp st p).snd) _ p "123456" heq⟩

/-- Witness for C7: a code issued for MRN-5001 (with no session involved) is
consumed while session "sess-B" is current. -/
theorem C7_witness :
    (verify_otp (some "sess-B") ((send_otp stEmpty "MRN-5001").snd)
      "MRN-5001" "123456").fst = VerifyResult.verifiedOk :=
  (C7_otp_keyed_by_patient_not_session stEmpty "MRN-5001" "sess-B"
    (by decide) (by decide)).2.1

/-! ## Claim theorems: contact masking -/

/-- `lookupPatientEntry` only ever returns directory entries. -/
theorem lookupPatientEntry_mem (idf : String) (pt : Patient)
    (h : lookupPatientEntry idf = some pt) : pt ∈ PATIENTS := by
  unfold lookupPatientEntry at h
  split_ifs at h with h1
  · exact List.mem_of_find?_eq_some h
  · cases hpi : phoneIndex idf with
    | none => rw [hpi] at h; exact absurd h (by simp)
    | some mrn => rw [hpi] at h; exact List.mem_of_find?_eq_some h

/-- C8: for every contact string of length at least 8, the masked form built
by `lookup_patient` keeps exactly the first 5 and last 3 characters and
replaces the middle with the fixed-width placeholder "****" (the result always
has 5 + 4 + 3 = 12 characters); and every found-reply of `lookup_patient`
carries the masked phone of a directory entry, which differs from the raw
contact string, so the full contact string is never returned. -/
theorem C8_lookup_masks_contact :
    (∀ p : List Char, 8 ≤ p.length →
      (maskChars p).take 5 = p.take 5
      ∧ (maskChars p).length = 12
      ∧ ((maskChars p).drop 5).take 4 = ['*', '*', '*', '*']
      ∧ (maskChars p).drop 9 = p.drop (p.length - 3)
      ∧ ('*' ∉ p → maskChars p ≠ p))
    ∧ (∀ idf n m mp d, lookup_patient idf = LookupResult.found n m mp d →
        ∃ pt, pt ∈ PATIENTS ∧ mp = maskPhone pt.phone ∧ mp ≠ pt.phone) := by
  constructor
  · intro p hp
    have h5 : (p.take 5).length = 5 := by
      rw [List.length_take]; omega
    have h3 : (p.drop (p.length - 3)).length = 3 := by
      rw [List.length_drop]; omega
    have hassoc : maskChars p
        = p.take 5 ++ (['*', '*', '*', '*'] ++ p.drop (p.length - 3)) := by
      rw [maskChars, List.append_assoc]
    refine ⟨?_, ?_, ?_, ?_, ?_⟩
    · rw [hassoc, List.take_append_eq_append_take, h5]
      simp [List.take_take]
    · rw [maskChars]
      simp only [List.length_append, h5, h3]
      rfl
    · rw [hassoc, List.drop_left' h5, List.take_left' (by rfl)]
    · rw [hassoc]
      have h9 : (p.take 5 ++ ['*', '*', '*', '*']).length = 9 := by
        simp [h5]
      rw [← List.append_assoc, List.drop_left' h9]
    · intro hstar heq
      apply hstar
      rw [← heq, hassoc]
      exact List.mem_append_right _ (List.mem_append_left _ (by simp))
  · intro idf n m mp d h
    cases hE : lookupPatientEntry idf with
    | none =>
      rw [lookup_patient, hE] at h
      exact absurd h (by simp)
    | some pt =>
      rw [lookup_patient, hE] at h
      obtain ⟨-, -, hmp, -⟩ := LookupResult.found.injEq _ _ _ _ _ _ _ _ ▸ h
      have hmem : pt ∈ PATIENTS := lookupPatientEntry_mem idf pt hE
      have hall : ∀ q ∈ PATIENTS, maskPhone q.phone ≠ q.phone := by decide
      exact ⟨pt, hmem, hmp.symm, hmp ▸ hall pt hmem⟩

/-- Witness for C8 on the directory phone "+971501234567": the masked form
keeps the first five characters, and the found-reply of looking MRN-5001 up
carries a masked directory phone that differs from the raw contact string. -/
theorem C8_witness :
    (maskChars ("+971501234567".data)).take 5 = ("+971501234567".data).take 5
    ∧ ∃ pt, pt ∈ PATIENTS ∧ maskPhone "+971501234567" = maskPhone pt.phone
        ∧ maskPhone "+971501234567" ≠ pt.phone :=
  ⟨(C8_lookup_masks_contact.1 ("+971501234567".data) (by decide)).1,
   C8_lookup_masks_contact.2 "MRN-5001" "Khalid Al-Rashid" "MRN-5001"
     (maskPhone "+971501234567") "1985-03-12" (by decide)⟩

/-! ## Claim theorems: tool registry dispatch -/

/-- C3: `_execute_tool` never propagates a failure.  For an unregistered
name it returns (not raises) the structured unknown-tool error payload; for a
registered handler that raises it returns the structured error payload
carrying the failure message.  (By construction `execute_tool` is a total
function into `String`: the embedded `except Exception` boundary means no
outcome of a tool call can abort the orchestration loop.) -/
theorem C3_execute_tool_errors_are_payloads
    (lookup : String → Option (String → Except String String))
    (name arguments : String) :
    (lookup name = none →
      execute_tool lookup name arguments
        = errorPayload ("Unknown tool: " ++ name))
    ∧ (∀ handler msg, lookup name = some handler →
        handler arguments = Except.error msg →
        execute_tool lookup name arguments = errorPayload msg) := by
  constructor
  · intro h
    simp only [execute_tool, h]
  · intro handler msg h1 h2
    simp only [execute_tool, h1, h2]

/-- Witness for C3: an unknown tool name and a raising handler both produce
error payloads. -/
theorem C3_witness :
    execute_tool lookupBoom "ghost" "" = errorPayload ("Unknown tool: " ++ "ghost")
    ∧ execute_tool lookupBoom "boom" "" = errorPayload "kaput" :=
  ⟨(C3_execute_tool_errors_are_payloads lookupBoom "ghost" "").1 rfl,
   (C3_execute_tool_errors_are_payloads lookupBoom "boom" "").2
     (fun _ => Except.error "kaput") "kaput" rfl rfl⟩

/-! ## Claim theorems: the bounded tool loop -/

/-- The loop adds at most one follow-up round-trip per unit of fuel. -/
theorem processLoop_trips_le
    (lookup : String → Option (String → Except String String))
    (script : Nat → ModelResponse) (fuel : Nat) :
    ∀ k resp tools disp trips,
      (processLoop lookup script fuel k resp tools disp trips).roundTrips
        ≤ trips + fuel := by
  induction fuel with
  | zero => intro k resp tools disp trips; exact Nat.le_refl _
  | succ n ih =>
    intro k resp tools disp trips
    rw [processLoop]
    by_cases h : (functionCallsOf resp).isEmpty
    · simp only [if_pos h]
      exact Nat.le_add_right _ _
    · simp only [if_neg h]
      calc (processLoop lookup script n (k + 1) (script k) _ _ (trips + 1)).roundTrips
          ≤ (trips + 1) + n := ih (k + 1) (script k) _ _ (trips + 1)
        _ ≤ trips + (n + 1) := by omega

/-- When every scripted response requests tool calls, the loop spends all its
fuel: it performs exactly one follow-up per iteration and ends holding the
response obtained by the last follow-up. -/
theorem processLoop_all_calls
    (lookup : String → Option (String → Except String String))
    (script : Nat → ModelResponse)
    (hs : ∀ j, (functionCallsOf (script j)).isEmpty = false) (fuel : Nat) :
    ∀ k resp tools disp trips, (functionCallsOf resp).isEmpty = false →
      (processLoop lookup script (fuel + 1) k resp tools disp trips).finalResponse
        = script (k + fuel)
      ∧ (processLoop lookup script (fuel + 1) k resp tools disp trips).roundTrips
        = trips + fuel + 1 := by
  induction fuel with
  | zero =>
    intro k resp tools disp trips hr
    rw [processLoop]
    simp only [hr, Bool.false_eq_true, if_false]
    rw [processLoop]
    exact ⟨rfl, rfl⟩
  | succ n ih =>
    intro k resp tools disp trips hr
    rw [processLoop]
    simp only [hr, Bool.false_eq_true, if_false]
    have := ih (k + 1) (script k)
      (tools ++ (functionCallsOf resp).map (fun c => c.2.1))
      (disp ++ ((functionCallsOf resp).map
        (fun c => (c.2.1, execute_tool lookup c.2.1 c.2.2))).map Prod.fst)
      (trips + 1) (hs k)
    refine ⟨?_, ?_⟩
    · rw [this.1]
      congr 1
      omega
    · rw [this.2]
      omega

/-- C4, counterexample to the claim as stated: with a model that requests a
tool call on every response, one `run` performs `MAX_TOOL_ITERATIONS + 1 = 31`
remote model round-trips (the initial response request plus one follow-up per
loop iteration), exceeding the iteration cap of 30 when all round-trips are
counted.  The cap is still not a hard failure: `run` returns the text of the
last obtained response as-is. -/
theorem C4_counterexample :
    MAX_TOOL_ITERATIONS < (run lookupBoom loopScript "sess-A").2.2
    ∧ (run lookupBoom loopScript "sess-A").2.2 = MAX_TOOL_ITERATIONS + 1
    ∧ (run lookupBoom loopScript "sess-A").1.response = "partial answer" := by
  refine ⟨by decide, by decide, by decide⟩

/-- C4 as amended: per turn, the tool loop of `run` performs at most
`MAX_TOOL_ITERATIONS` follow-up round-trips — so at most
`MAX_TOOL_ITERATIONS + 1` model round-trips in total, counting the initial
response request — and reaching the cap is not a hard failure: when every
response keeps requesting tools, the loop terminates after exactly its 30
follow-ups and `run` returns the text of the last obtained response
(`script 30`) as-is rather than raising an error. -/
theorem C4_run_round_trips_bounded
    (lookup : String → Option (String → Except String String))
    (script : Nat → ModelResponse) (session_id : String) :
    (run lookup script session_id).2.2 ≤ MAX_TOOL_ITERATIONS + 1
    ∧ ((∀ j, (functionCallsOf (script j)).isEmpty = false) →
        (run lookup script session_id).2.2 = MAX_TOOL_ITERATIONS + 1
        ∧ (run lookup script session_id).1.response
            = (script MAX_TOOL_ITERATIONS).output_text) := by
  constructor
  · have h := processLoop_trips_le lookup script MAX_TOOL_ITERATIONS 1
      (script 0) [] [] 0
    simp only [run]
    omega
  · intro hs
    have h := processLoop_all_calls lookup script hs 29 1 (script 0) [] [] 0 (hs 0)
    constructor
    · simp only [run, MAX_TOOL_ITERATIONS]
      rw [show (30 : Nat) = 29 + 1 from rfl] at *
      rw [h.2]
    · simp only [run, MAX_TOOL_ITERATIONS]
      rw [show (30 : Nat) = 29 + 1 from rfl]
      rw [h.1]

/-- Witness for the amended C4 on the never-converging script: 31 total
round-trips and the partial answer returned as-is. -/
theorem C4_witness :
    (run lookupBoom loopScript "sess-A").2.2 = MAX_TOOL_ITERATIONS + 1
    ∧ (run lookupBoom loopScript "sess-A").1.response
        = (loopScript MAX_TOOL_ITERATIONS).output_text :=
  (C4_run_round_trips_bounded lookupBoom loopScript "sess-A").2
    (fun _ => rfl)

/-- The loop keeps `tools_called` and the dispatch log in lockstep. -/
theorem processLoop_tools_eq_dispatched
    (lookup : String → Option (String → Except String String))
    (script : Nat → ModelResponse) (fuel : Nat) :
    ∀ k resp tools disp trips, tools = disp →
      (processLoop lookup script fuel k resp tools disp trips).tools_called
        = (processLoop lookup script fuel k resp tools disp trips).dispatched := by
  induction fuel with
  | zero => intro k resp tools disp trips h; exact h
  | succ n ih =>
    intro k resp tools disp trips h
    rw [processLoop]
    by_cases he : (functionCallsOf resp).isEmpty
    · simp only [if_pos he]; exact h
    · simp only [if_neg he]
      exact ih (k + 1) (script k) _ _ (trips + 1)
        (by rw [h, List.map_map]; rfl)

/-- C5: the `tools_called` list returned by `run` is exactly the log of tool
dispatches — one entry per invocation handed to `execute_tool` across all
loop iterations, in execution order, duplicates included. -/
theorem C5_tools_called_is_dispatch_log
    (lookup : String → Option (String → Except String String))
    (script : Nat → ModelResponse) (session_id : String) :
    (run lookup script session_id).1.tools_called
      = (run lookup script session_id).2.1 := by
  simp only [run]
  exact processLoop_tools_eq_dispatched lookup script MAX_TOOL_ITERATIONS 1
    (script 0) [] [] 0 rfl

/-! ## Claim theorems: session store -/

/-- C9: `get_or_create` is idempotent — a second call with the same id (at
any later timestamp) returns the very same document and leaves the store
unchanged, duplicating no history — and a freshly created session document
has empty history, unverified identity with no patient, zero handoff count,
its TTL horizon fixed at creation, and (since `get_or_create` never touches
the `_workflows` cache) no conversation linkage. -/
theorem C9_get_or_create_idempotent_and_fresh
    (store : String → Option SessionDoc) (workflows : String → Option String)
    (session_id now1 now2 : String) :
    ((get_or_create now2 (get_or_create now1 store session_id).2 session_id).1
        = (get_or_create now1 store session_id).1
      ∧ (get_or_create now2 (get_or_create now1 store session_id).2 session_id).2
        = (get_or_create now1 store session_id).2
      ∧ (get_or_create now2 (get_or_create now1 store session_id).2 session_id).1.conversation_history
        = (get_or_create now1 store session_id).1.conversation_history)
    ∧ (store session_id = none → workflows session_id = none →
        (get_or_create now1 store session_id).1.conversation_history = []
        ∧ get_conversation_id workflows session_id = none
        ∧ (get_or_create now1 store session_id).1.patient_verified = false
        ∧ (get_or_create now1 store session_id).1.patient_mrn = none
        ∧ (get_or_create now1 store session_id).1.patient_context = none
        ∧ (get_or_create now1 store session_id).1.handoff_count = 0
        ∧ (get_or_create now1 store session_id).1.ttl = DEFAULT_TTL
        ∧ (get_or_create now1 store session_id).1.created_at = now1) := by
  constructor
  · cases hS : store session_id with
    | some doc =>
      simp [get_or_create, get_session, hS]
    | none =>
      simp [get_or_create, get_session, hS, create_session]
  · intro h1 h2
    simp [get_or_create, get_session, h1, create_session,
      get_conversation_id, h2]

/-- Witness for C9 on the empty store: creating "sess-1" and re-ensuring it
returns the same fresh document. -/
theorem C9_witness :
    (get_or_create "t2" (get_or_create "t1" storeEmpty "sess-1").2 "sess-1").1
      = (get_or_create "t1" storeEmpty "sess-1").1
    ∧ (get_or_create "t1" storeEmpty "sess-1").1.conversation_history = [] :=
  ⟨(C9_get_or_create_idempotent_and_fresh storeEmpty wfEmpty "sess-1" "t1" "t2").1.1,
   ((C9_get_or_create_idempotent_and_fresh storeEmpty wfEmpty "sess-1" "t1" "t2").2
     rfl rfl).1⟩

end ClinicVoice
